import Mathlib

set_option maxRecDepth 100000

/-!
Verification of the triton-bot staking/balance/withdrawal logic.

The development shallowly embeds `triton/chain.py` and `triton/service.py`:
contract reads and wallet operations become explicit `Except`-valued inputs
(an environment record), Python big integers become `Nat`/`Int`, Python
binary64 floats become exact dyadic rationals produced by an explicit
round-to-nearest-even model, and effect order (which reads and transfers are
issued) is recorded as an explicit trace list.
-/

namespace Triton

/-! ### Binary64 (Python float) model

Python's `int / int` true division returns the IEEE-754 binary64 value
nearest to the exact quotient (ties to even); `int`-to-`float` conversion
rounds the same way, and `float * float` and `float / float` are correctly
rounded. Every float appearing in this program is nonnegative, so we model
a float by the exact dyadic rational `m * 2 ^ e` that is its value.
Exponent-range checks (overflow, subnormals) are omitted: the model is
exact for the magnitudes the program manipulates, which are well inside
the normal range. -/

/-- A nonnegative dyadic rational `m * 2 ^ e`, the exact value of a binary64
float. The representation is not normalized; `valEq` compares values. -/
structure Dyadic where
  m : ℕ
  e : ℤ
deriving DecidableEq

/-- Fuel-driven floor of log2, structurally recursive so that the kernel
can evaluate it: `log2F fuel n = ⌊log2 n⌋` for `0 < n < 2 ^ fuel`. -/
def log2F (fuel n : ℕ) : ℕ :=
  match fuel with
  | 0 => 0
  | f + 1 => if n ≤ 1 then 0 else log2F f (n / 2) + 1

/-- Does `n / d ≥ 2 ^ e` hold (for positive `n`, `d`)? -/
def ge2pow (n d : ℕ) (e : ℤ) : Bool :=
  if 0 ≤ e then d * 2 ^ e.toNat ≤ n else d ≤ n * 2 ^ (-e).toNat

/-- Floor of log2 of the positive rational `n / d`. -/
def floorLog2 (n d : ℕ) : ℤ :=
  let c : ℤ := (log2F 1100 n : ℤ) - (log2F 1100 d : ℤ)
  if ge2pow n d c then c else c - 1

/-- Round the nonnegative rational `N / D` to the nearest integer,
ties to even. -/
def roundHalfEven (N D : ℕ) : ℕ :=
  let q := N / D
  let r := N % D
  if 2 * r < D then q
  else if D < 2 * r then q + 1
  else if q % 2 = 0 then q else q + 1

/-- The binary64 float nearest to `n / d` (round to nearest, ties to even):
scale `n / d` into `[2 ^ 52, 2 ^ 53)`, round the mantissa, keep the
exponent. Returns `0` when `n = 0` or `d = 0`. -/
def roundDouble (n d : ℕ) : Dyadic :=
  if n = 0 ∨ d = 0 then ⟨0, 0⟩
  else
    let k := floorLog2 n d
    let s : ℤ := 52 - k
    ⟨roundHalfEven (n * 2 ^ s.toNat) (d * 2 ^ (-s).toNat), k - 52⟩

/-- Python `a / b` on nonnegative ints: correctly rounded true division. -/
def pyIntTrueDiv (a b : ℕ) : Dyadic := roundDouble a b

/-- Python `float(n)` conversion of a nonnegative int. -/
def pyFloat (n : ℕ) : Dyadic := roundDouble n 1

/-- Python `x / y` on nonnegative floats: correctly rounded quotient. -/
def pyFloatDiv (x y : Dyadic) : Dyadic :=
  roundDouble (x.m * 2 ^ (x.e - y.e).toNat) (y.m * 2 ^ (y.e - x.e).toNat)

/-- Python `x * y` on nonnegative floats: round the exact product
`(x.m * y.m) * 2 ^ (x.e + y.e)`; rounding commutes with the power of two. -/
def pyFloatMul (x y : Dyadic) : Dyadic :=
  let r := roundDouble (x.m * y.m) 1
  ⟨r.m, r.e + x.e + y.e⟩

/-- Python `math.ceil` on a nonnegative float: exact ceiling of its value. -/
def pyCeilF (x : Dyadic) : ℕ :=
  if 0 ≤ x.e then x.m * 2 ^ x.e.toNat
  else (x.m + 2 ^ (-x.e).toNat - 1) / 2 ^ (-x.e).toNat

/-- Value equality of two dyadics, by cross-shifting the mantissas. -/
def Dyadic.valEq (x y : Dyadic) : Prop :=
  x.m * 2 ^ (x.e - y.e).toNat = y.m * 2 ^ (y.e - x.e).toNat

instance (x y : Dyadic) : Decidable (x.valEq y) :=
  inferInstanceAs (Decidable (x.m * 2 ^ (x.e - y.e).toNat = y.m * 2 ^ (y.e - x.e).toNat))

/-- The exact rational value of a dyadic. -/
def Dyadic.toRat (x : Dyadic) : ℚ := (x.m : ℚ) * 2 ^ x.e

/-! ### Exceptions

Python exception values relevant to the embedded code. `KeyError`,
`ContractLogicError`, `ABIFunctionNotFound` and `ValueError` are caught by
name somewhere in the source; everything else is represented by `otherExc`
with a tag. -/

inductive Exc where
  | keyError
  | indexError
  | valueError (msg : String)
  | requestException (msg : String)
  | contractLogicError
  | abiFunctionNotFound
  | otherExc (tag : String)
deriving DecidableEq

deriving instance DecidableEq for Except

/-- Python list indexing `l[i]`, raising `IndexError` when out of range. -/
def listIdx {α : Type} (l : List α) (i : ℕ) : Except Exc α :=
  match l[i]? with
  | some v => Except.ok v
  | none => Except.error Exc.indexError

/-! ### Embedding of `triton/chain.py`

Each on-chain read and the metadata HTTP fetch become fields of a
`ChainEnv`: an `Except`-valued field models one `.call()` (either a value
or a raised exception), and the HTTP response is a status code plus the
decoded JSON payload (decoding by the HTTP library is treated as external
and total, the payload being an uninterpreted `String`). -/

structure ChainEnv where
  /-- `staking_token_contract.functions.mapServiceInfo(service_id).call()`. -/
  mapServiceInfo : ℕ → Except Exc (List ℕ)
  /-- `mech_contract.functions.mapRequestsCounts(requester).call()` on the
  mech at the given address (older schema name). -/
  mapRequestsCounts : String → String → Except Exc ℕ
  /-- `mech_contract.functions.mapRequestCounts(requester).call()` (newer
  schema name). -/
  mapRequestCounts : String → String → Except Exc ℕ
  /-- `staking_token_contract.functions.getServiceInfo(service_id).call()`,
  a list whose index 2 is itself a list whose index 1 is the request count
  at the last checkpoint. -/
  getServiceInfo : ℕ → Except Exc (List (List ℕ))
  /-- `activity_checker_contract.functions.livenessRatio().call()`. -/
  livenessRatioCall : Except Exc ℕ
  /-- `staking_token_contract.functions.livenessPeriod().call()`. -/
  livenessPeriodCall : Except Exc ℕ
  /-- `staking_token_contract.functions.tsCheckpoint().call()`. -/
  tsCheckpointCall : Except Exc ℕ
  /-- `staking_token_contract.functions.metadataHash().call().hex()`. -/
  metadataHashCall : Except Exc String
  /-- `IPFS_ADDRESS.format(hash=...)` from the external operate library. -/
  ipfsAddressOf : String → String
  /-- `requests.get(url, timeout=30).status_code`. -/
  httpGetStatus : String → ℕ
  /-- `response.json()` of the same response, as an uninterpreted payload. -/
  httpGetJson : String → String

/-- Modelled from the spec: `wei_to_olas` lives in `triton/tools.py`, which
is not in the source tree; per the spec (§4.2 step 1) it converts the
token's smallest unit (18 decimals) into a decimal display amount. -/
def wei_to_olas (wei : ℕ) : ℚ := (wei : ℚ) / 10 ^ 18

/-- The snapshot dictionary returned by `chain.get_staking_status`.
`epoch_end` is kept as the raw timestamp `tsCheckpoint + livenessPeriod`;
its timezone rendering is presentation and not modelled. -/
structure StakingStatus where
  accrued_rewards : ℚ
  mech_requests_this_epoch : ℤ
  required_mech_requests : ℕ
  epoch_end : ℕ
  metadata : String
deriving DecidableEq

namespace Chain

/-- `chain.get_mech_request_count`: try the older `mapRequestsCounts`
getter; on `ContractLogicError`, `ABIFunctionNotFound` or `ValueError`
fall back to `mapRequestCounts`; other exceptions propagate. -/
def get_mech_request_count (env : ChainEnv) (mech_contract_address requester_address : String) :
    Except Exc ℕ :=
  match env.mapRequestsCounts mech_contract_address requester_address with
  | Except.ok n => Except.ok n
  | Except.error e =>
    match e with
    | Exc.contractLogicError => env.mapRequestCounts mech_contract_address requester_address
    | Exc.abiFunctionNotFound => env.mapRequestCounts mech_contract_address requester_address
    | Exc.valueError _ => env.mapRequestCounts mech_contract_address requester_address
    | e => Except.error e

/-- `chain.get_staking_status`: the seven-step snapshot computation.
Unlike the service layer, this function installs no exception handler, so
any raised read error escapes as-is; only the metadata fetch raises its
own explicit `RequestException` on a non-200 status. -/
def get_staking_status (env : ChainEnv) (mech_contract_address staking_token_address
    activity_checker_address : String) (service_id : ℕ) (safe_address : String) :
    Except Exc StakingStatus := do
  -- two `load_contract` calls (pure ABI loading, no chain read)
  let _ := staking_token_address
  let _ := activity_checker_address
  -- Rewards
  let service_info ← env.mapServiceInfo service_id
  let reward ← listIdx service_info 3
  let accrued_rewards := wei_to_olas reward
  -- Request count (total)
  let mech_request_count ← get_mech_request_count env mech_contract_address safe_address
  -- Request count (last checkpoint)
  let outer ← env.getServiceInfo service_id
  let service_info2 ← listIdx outer 2
  let mech_request_count_on_last_checkpoint ←
    match service_info2 with
    | [] => Except.ok 0
    | l => listIdx l 1
  -- Request count (current epoch): plain Python int subtraction, no clamping
  let mech_requests_this_epoch : ℤ :=
    (mech_request_count : ℤ) - (mech_request_count_on_last_checkpoint : ℤ)
  -- Required requests: float true division, then math.ceil
  let liveness_ratio ← env.livenessRatioCall
  let mech_requests_24h_threshold :=
    pyCeilF (pyIntTrueDiv (liveness_ratio * 60 * 60 * 24) (10 ^ 18))
  -- Epoch end
  let liveness_period ← env.livenessPeriodCall
  let checkpoint_ts ← env.tsCheckpointCall
  let epoch_end := checkpoint_ts + liveness_period
  -- Metadata
  let metadata_hash ← env.metadataHashCall
  let ipfs_address := env.ipfsAddressOf metadata_hash
  let status := env.httpGetStatus ipfs_address
  if status ≠ 200 then
    Except.error (Exc.requestException
      ("Failed to fetch data from " ++ ipfs_address ++ ": " ++ toString status))
  else
    Except.ok
      { accrued_rewards := accrued_rewards
        mech_requests_this_epoch := mech_requests_this_epoch
        required_mech_requests := mech_requests_24h_threshold
        epoch_end := epoch_end
        metadata := env.httpGetJson ipfs_address }

end Chain

/-! ### Embedding of `triton/service.py`

The external operate library calls (staking-program resolution, safe-tx
builder, wallet transfers) and the contract reads of the two mech schema
probes become `Except`-valued fields of the environment records below.
`check_balance` and `withdraw_rewards` additionally return a trace of the
balance reads and transfer calls they issue, in order. -/

namespace Service

/-- The hardcoded fallback mech address in `TritonService.get_staking_status`. -/
def FALLBACK_MECH : String := "0x77af31De935740567Cf4fF1986D04B2c964A786a"

structure ServiceEnv where
  /-- `service_manager._get_current_staking_program(...)` (external call). -/
  currentStakingProgram : Except Exc String
  /-- `get_staking_contract(chain, staking_program_id)` (a table lookup in
  the operate library; `None` when the program is unknown). -/
  stakingContractLookup : String → Option String
  /-- `get_eth_safe_tx_builder(...)` followed by
  `sftxb.get_staking_params(...)["activity_checker"]`, i.e. everything in
  the guarded block after the staking-contract address is known. A missing
  dictionary key raises `KeyError`. -/
  stakingParamsActivityChecker : Except Exc String
  /-- `requester_activity_checker...functions.mechMarketplace().call()`
  (schema A probe, including contract loading). -/
  mechMarketplace : Except Exc String
  /-- `mech_activity_contract...functions.agentMech().call()`
  (schema B probe, including contract loading). -/
  agentMech : Except Exc String
  /-- `self.service_id` (the chain config's token). -/
  serviceId : ℕ
  /-- `self.service_safe` (the chain config's multisig). -/
  serviceSafe : String
  chainEnv : ChainEnv

/-- `TritonService.staking_contract_address`: resolve the current staking
program and look up its contract address; `KeyError` anywhere in the body
becomes `ValueError("Failed to get staking contract address.")`, and a
missing/falsy address becomes a `ValueError` naming the program. -/
def staking_contract_address (env : ServiceEnv) : Except Exc String :=
  let body : Except Exc String := do
    let p ← env.currentStakingProgram
    match env.stakingContractLookup p with
    | some addr =>
      if addr = "" then
        Except.error (Exc.valueError
          ("Staking contract address not found for current_staking_program=" ++ p ++ "."))
      else Except.ok addr
    | none =>
      Except.error (Exc.valueError
        ("Staking contract address not found for current_staking_program=" ++ p ++ "."))
  match body with
  | Except.error Exc.keyError =>
    Except.error (Exc.valueError "Failed to get staking contract address.")
  | r => r

/-- The mech-address resolution step inlined in
`TritonService.get_staking_status`: try the schema A read
(`mechMarketplace`); on any exception try the schema B read (`agentMech`);
on any exception there as well, use the hardcoded fallback address. The
function is total: it never propagates an error. -/
def resolve_mech (schemaA schemaB : Except Exc String) : String :=
  match schemaA with
  | Except.ok mech => mech
  | Except.error _ =>
    match schemaB with
    | Except.ok mech => mech
    | Except.error _ => FALLBACK_MECH

/-- `TritonService.get_staking_status`: the guarded staking-parameter block
(whose handler catches only `KeyError` and re-raises it as
`ValueError("Failed to get staking status.")`), then mech resolution, then
the chain-level snapshot computation, whose errors are not handled here. -/
def get_staking_status (env : ServiceEnv) : Except Exc StakingStatus :=
  let params : Except Exc (String × String) := do
    let staking_contract ← staking_contract_address env
    let activity_checker ← env.stakingParamsActivityChecker
    Except.ok (staking_contract, activity_checker)
  match params with
  | Except.error Exc.keyError =>
    Except.error (Exc.valueError "Failed to get staking status.")
  | Except.error e => Except.error e
  | Except.ok (staking_contract, activity_checker) =>
    let mech := resolve_mech env.mechMarketplace env.agentMech
    Chain.get_staking_status env.chainEnv mech staking_contract activity_checker
      env.serviceId env.serviceSafe

/-! #### `check_balance` -/

/-- One issued balance read, as recorded in the trace. -/
inductive ReadEv where
  | nativeRead (addr : String)
  | wrappedRead (addr : String)
  | olasRead (addr : String)
deriving DecidableEq

structure BalanceEnv where
  /-- `chain_config.chain_data.instances`. -/
  instances : List String
  /-- `chain_config.chain_data.multisig` (the service safe). -/
  multisig : String
  /-- `master_wallet.crypto.address` (the master EOA). -/
  masterEoa : String
  /-- `master_wallet.safes`: `none` models Python `None`; otherwise an
  association list from chain name to safe address. -/
  safes : Option (List (String × String))
  /-- `service.home_chain`. -/
  homeChain : String
  /-- Result of `get_native_balance(addr)` (a `Decimal`, kept exact). -/
  nativeBalance : String → ℚ
  /-- Result of `get_wrapped_native_balance(addr, chain)` (a float value). -/
  wrappedBalance : String → ℚ
  /-- Result of `get_olas_balance(addr)` (a raw uint256). -/
  olasBalance : String → ℕ

/-- The seven balances returned by `TritonService.check_balance`. -/
structure BalanceSnapshot where
  agent_eoa_native_balance : ℚ
  service_safe_native_balance : ℚ
  service_safe_wrapped_native_balance : ℚ
  master_eoa_native_balance : ℚ
  master_safe_native_balance : ℚ
  master_safe_olas_balance : Dyadic
  service_safe_olas_balance : Dyadic
deriving DecidableEq

/-- Python dict lookup `safes[chain]` on the association list model. -/
def lookupChain (m : List (String × String)) (c : String) : Option String :=
  (m.find? (fun p => p.1 = c)).map (fun p => p.2)

/-- `get_olas_balance(addr) / 1e18`: the raw integer balance converted to
a float by int-to-float conversion followed by float division by the
(exactly representable) double `1e18`. -/
def olasDisplay (b : ℕ) : Dyadic := pyFloatDiv (pyFloat b) ⟨10 ^ 18, 0⟩

/-- `TritonService.check_balance`: two fail-fast validations, then seven
balance reads in source order. The returned trace records every read
issued. A `safes` mapping without the home chain raises `KeyError`
after the first four reads (there is no guard for it in the source). -/
def check_balance (env : BalanceEnv) : List ReadEv × Except Exc BalanceSnapshot :=
  match env.instances with
  | [] => ([], Except.error (Exc.valueError "No agent instances found in the chain configuration"))
  | agent :: _ =>
    match env.safes with
    | none => ([], Except.error (Exc.valueError "Master wallet safes not found"))
    | some safes =>
      let t1 := [ReadEv.nativeRead agent, ReadEv.nativeRead env.multisig,
                 ReadEv.wrappedRead env.multisig, ReadEv.nativeRead env.masterEoa]
      match lookupChain safes env.homeChain with
      | none => (t1, Except.error Exc.keyError)
      | some master_safe_address =>
        (t1 ++ [ReadEv.nativeRead master_safe_address, ReadEv.olasRead master_safe_address,
                ReadEv.olasRead env.multisig],
         Except.ok
           { agent_eoa_native_balance := env.nativeBalance agent
             service_safe_native_balance := env.nativeBalance env.multisig
             service_safe_wrapped_native_balance := env.wrappedBalance env.multisig
             master_eoa_native_balance := env.nativeBalance env.masterEoa
             master_safe_native_balance := env.nativeBalance master_safe_address
             master_safe_olas_balance := olasDisplay (env.olasBalance master_safe_address)
             service_safe_olas_balance := olasDisplay (env.olasBalance env.multisig) })

/-! #### `withdraw_rewards` -/

/-- One issued OLAS balance read or transfer call, as recorded in the
trace. The master-safe transfer passes the raw integer balance as amount;
the service-safe transfer passes the float product `display * 1e18`. -/
inductive WEv where
  | olasReadEv (addr : String)
  | masterTransferEv (toAddr : String) (amount : ℕ) (asset : String)
  | serviceTransferEv (toAddr : String) (amount : Dyadic) (token : String)
deriving DecidableEq

/-- One withdrawal record: `(tx_hash, amount, source)`. Both recorded
amounts are floats (`balance / 1e18`). -/
structure Withdrawal where
  txHash : Option String
  amount : Dyadic
  source : String
deriving DecidableEq

structure WithdrawEnv where
  /-- `os.getenv("WITHDRAWAL_ADDRESS", None)`. -/
  withdrawalAddress : Option String
  /-- `master_wallet.safes[home_chain]` (unguarded dict lookup). -/
  homeChainSafe : Except Exc String
  /-- `OLAS[home_chain]` (library constant table). -/
  olasTokenAddress : String
  /-- `get_olas_balance(master_safe)`. -/
  masterOlasBalance : Except Exc ℕ
  /-- `master_wallet.transfer(...)` returning a tx hash. -/
  masterTransfer : Except Exc (Option String)
  /-- `self.service_safe`. -/
  serviceSafe : String
  /-- `get_olas_balance(service_safe)`. -/
  serviceOlasBalance : Except Exc ℕ
  /-- `self.service.agent_addresses[0]` plus
  `keys_manager.get_crypto_instance(...)`. -/
  keysCrypto : Except Exc Unit
  /-- `transfer_erc20_from_safe(...)` returning a tx hash. -/
  serviceTransfer : Except Exc (Option String)

/-- The master-safe branch of `withdraw_rewards`: a failed balance read is
logged and treated as balance `0`; a zero balance skips the transfer; a
failed transfer is logged and contributes nothing. -/
def masterPathStep (env : WithdrawEnv) (w : String) : List WEv × List Withdrawal :=
  let master_safe_olas_balance : ℕ :=
    match env.masterOlasBalance with
    | Except.ok b => b
    | Except.error _ => 0
  if master_safe_olas_balance ≠ 0 then
    match env.masterTransfer with
    | Except.ok tx_hash =>
      ([WEv.masterTransferEv w master_safe_olas_balance env.olasTokenAddress],
       [{ txHash := tx_hash, amount := olasDisplay master_safe_olas_balance,
          source := "Master Safe" }])
    | Except.error _ =>
      ([WEv.masterTransferEv w master_safe_olas_balance env.olasTokenAddress], [])
  else ([], [])

/-- The service-safe branch of `withdraw_rewards`: one `try` block covering
the balance read, the crypto-instance lookup and the transfer; any
exception inside it is logged and contributes nothing. The transferred
amount is the float `(balance / 1e18) * 1e18`. -/
def servicePathStep (env : WithdrawEnv) (w : String) : List WEv × List Withdrawal :=
  match env.serviceOlasBalance with
  | Except.error _ => ([], [])
  | Except.ok sb =>
    let service_safe_olas_balance := olasDisplay sb
    if 0 < service_safe_olas_balance.m then
      match env.keysCrypto with
      | Except.error _ => ([], [])
      | Except.ok _ =>
        match env.serviceTransfer with
        | Except.ok tx_hash =>
          ([WEv.serviceTransferEv w (pyFloatMul service_safe_olas_balance ⟨10 ^ 18, 0⟩)
              env.olasTokenAddress],
           [{ txHash := tx_hash, amount := service_safe_olas_balance, source := "Service Safe" }])
        | Except.error _ =>
          ([WEv.serviceTransferEv w (pyFloatMul service_safe_olas_balance ⟨10 ^ 18, 0⟩)
              env.olasTokenAddress], [])
    else ([], [])

/-- `TritonService.withdraw_rewards`: nothing happens without a configured
withdrawal address; otherwise the master-safe branch runs, then the
service-safe branch, and the two contribution lists are concatenated. The
only unguarded step is the `safes[home_chain]` lookup. -/
def withdraw_rewards (env : WithdrawEnv) : List WEv × Except Exc (List Withdrawal) :=
  match env.withdrawalAddress with
  | none => ([], Except.ok [])
  | some w =>
    if w = "" then ([], Except.ok [])
    else
      match env.homeChainSafe with
      | Except.error e => ([], Except.error e)
      | Except.ok master_safe =>
        let mp := masterPathStep env w
        let sp := servicePathStep env w
        ([WEv.olasReadEv master_safe] ++ mp.1 ++ [WEv.olasReadEv env.serviceSafe] ++ sp.1,
         Except.ok (mp.2 ++ sp.2))

end Service

/-! ### Canonical environments for the theorems -/

/-- A chain environment in which every read succeeds with the given values:
`[_, _, _, reward]` for `mapServiceInfo`, `lifetimeCount` for both request
count getters, `[[], [], [_, checkpointCount]]` for `getServiceInfo`, and
the given liveness/checkpoint/metadata/HTTP data. -/
def mkChainEnvOk (reward lifetimeCount checkpointCount ratio period ts : ℕ)
    (hash : String) (ipfsF : String → String) (status : ℕ) (body : String) : ChainEnv :=
  { mapServiceInfo := fun _ => Except.ok [0, 0, 0, reward]
    mapRequestsCounts := fun _ _ => Except.ok lifetimeCount
    mapRequestCounts := fun _ _ => Except.ok lifetimeCount
    getServiceInfo := fun _ => Except.ok [[], [], [0, checkpointCount]]
    livenessRatioCall := Except.ok ratio
    livenessPeriodCall := Except.ok period
    tsCheckpointCall := Except.ok ts
    metadataHashCall := Except.ok hash
    ipfsAddressOf := ipfsF
    httpGetStatus := fun _ => status
    httpGetJson := fun _ => body }

/-- A service environment whose operate-library steps all succeed,
wrapping the given chain environment. -/
def mkServiceEnvOk (ce : ChainEnv) : Service.ServiceEnv :=
  { currentStakingProgram := Except.ok "pearl_beta"
    stakingContractLookup := fun _ => some "0xstaking"
    stakingParamsActivityChecker := Except.ok "0xactivity"
    mechMarketplace := Except.ok "0xmech"
    agentMech := Except.ok "0xagentmech"
    serviceId := 1
    serviceSafe := "0xservicesafe"
    chainEnv := ce }

/-- A balance environment whose master wallet has a safes mapping that
lacks the home chain: the two fail-fast validations pass, yet no master
safe address exists for the home chain. -/
def cbGapEnv : Service.BalanceEnv :=
  { instances := ["0xagent"]
    multisig := "0xmultisig"
    masterEoa := "0xmastereoa"
    safes := some []
    homeChain := "gnosis"
    nativeBalance := fun _ => 0
    wrappedBalance := fun _ => 0
    olasBalance := fun _ => 0 }

/-- A withdraw environment with a configured withdrawal address in which
every wallet operation succeeds, with the given raw master-safe and
service-safe OLAS balances. -/
def mkWithdrawEnvOk (b sb : ℕ) : Service.WithdrawEnv :=
  { withdrawalAddress := some "0xwithdrawal"
    homeChainSafe := Except.ok "0xmastersafe"
    olasTokenAddress := "0xolas"
    masterOlasBalance := Except.ok b
    masterTransfer := Except.ok (some "0xtxmaster")
    serviceSafe := "0xservicesafe"
    serviceOlasBalance := Except.ok sb
    keysCrypto := Except.ok ()
    serviceTransfer := Except.ok (some "0xtxservice")}

/-- `cbGapEnv` with an empty instances list. -/
def cbEmptyEnv : Service.BalanceEnv := { cbGapEnv with instances := [] }

/-- `cbGapEnv` with `safes = None`. -/
def cbNoneEnv : Service.BalanceEnv := { cbGapEnv with safes := none }

/-- `cbGapEnv` with a safes mapping that does contain the home chain. -/
def cbOkEnv : Service.BalanceEnv :=
  { cbGapEnv with safes := some [("gnosis", "0xmastersafe")] }

/-- `mkWithdrawEnvOk` with no configured withdrawal address. -/
def noWdEnv : Service.WithdrawEnv :=
  { mkWithdrawEnvOk 5 5 with withdrawalAddress := none }

/-! ### Claims -/

/-- `valEq` is exactly equality of the rational values. -/
theorem Dyadic.valEq_iff_toRat (x y : Dyadic) : x.valEq y ↔ x.toRat = y.toRat := by
  have h2 : (2 : ℚ) ≠ 0 := by norm_num
  have key : x.e - (x.e - y.e).toNat = y.e - (y.e - x.e).toNat := by
    rcases le_total x.e y.e with h | h
    · have h1 : (x.e - y.e).toNat = 0 := Int.toNat_of_nonpos (by omega)
      have h2' : ((y.e - x.e).toNat : ℤ) = y.e - x.e := Int.toNat_of_nonneg (by omega)
      omega
    · have h1 : (y.e - x.e).toNat = 0 := Int.toNat_of_nonpos (by omega)
      have h2' : ((x.e - y.e).toNat : ℤ) = x.e - y.e := Int.toNat_of_nonneg (by omega)
      omega
  constructor
  · intro h
    unfold Dyadic.valEq at h
    have hq : (x.m : ℚ) * 2 ^ (x.e - y.e).toNat = (y.m : ℚ) * 2 ^ (y.e - x.e).toNat := by
      exact_mod_cast h
    unfold Dyadic.toRat
    have hx : (x.m : ℚ) * 2 ^ x.e
        = ((x.m : ℚ) * 2 ^ (x.e - y.e).toNat) * 2 ^ (x.e - ((x.e - y.e).toNat : ℤ)) := by
      rw [mul_assoc, ← zpow_natCast (2 : ℚ) (x.e - y.e).toNat, ← zpow_add₀ h2]
      ring_nf
    have hy : (y.m : ℚ) * 2 ^ y.e
        = ((y.m : ℚ) * 2 ^ (y.e - x.e).toNat) * 2 ^ (y.e - ((y.e - x.e).toNat : ℤ)) := by
      rw [mul_assoc, ← zpow_natCast (2 : ℚ) (y.e - x.e).toNat, ← zpow_add₀ h2]
      ring_nf
    rw [hx, hy, hq, key]
  · intro h
    unfold Dyadic.toRat at h
    have hq : (x.m : ℚ) * 2 ^ (x.e - y.e).toNat = (y.m : ℚ) * 2 ^ (y.e - x.e).toNat := by
      have hx : (x.m : ℚ) * 2 ^ (x.e - y.e).toNat
          = ((x.m : ℚ) * 2 ^ x.e) * 2 ^ (((x.e - y.e).toNat : ℤ) - x.e) := by
        rw [mul_assoc, ← zpow_natCast (2 : ℚ) (x.e - y.e).toNat, ← zpow_add₀ h2]
        ring_nf
      have hy : (y.m : ℚ) * 2 ^ (y.e - x.e).toNat
          = ((y.m : ℚ) * 2 ^ y.e) * 2 ^ (((y.e - x.e).toNat : ℤ) - y.e) := by
        rw [mul_assoc, ← zpow_natCast (2 : ℚ) (y.e - x.e).toNat, ← zpow_add₀ h2]
        ring_nf
      rw [hx, hy, h]
      congr 1
      congr 1
      omega
    unfold Dyadic.valEq
    have := hq
    push_cast at this
    exact_mod_cast this


/-- C1: for every pair of schema probe outcomes, the mech-address
resolution step of `TritonService.get_staking_status` (a total function,
so it never raises) returns a non-empty address: schema A's value when
that read succeeds, else schema B's value when it succeeds, else the fixed
fallback address — assuming, as the ABI guarantees, that a successful
address read is a non-empty string. -/
theorem c1_mech_resolution (a b : Except Exc String)
    (ha : ∀ x, a = Except.ok x → x ≠ "")
    (hb : ∀ x, b = Except.ok x → x ≠ "") :
    Service.resolve_mech a b ≠ ""
    ∧ (∀ x, a = Except.ok x → Service.resolve_mech a b = x)
    ∧ (∀ ea x, a = Except.error ea → b = Except.ok x → Service.resolve_mech a b = x)
    ∧ (∀ ea eb, a = Except.error ea → b = Except.error eb →
        Service.resolve_mech a b = Service.FALLBACK_MECH) := by
  refine ⟨?_, ?_, ?_, ?_⟩
  · cases a with
    | ok x => simpa [Service.resolve_mech] using ha x rfl
    | error ea =>
      cases b with
      | ok y => simpa [Service.resolve_mech] using hb y rfl
      | error eb => simp [Service.resolve_mech, Service.FALLBACK_MECH]
  · intro x hx
    subst hx
    simp [Service.resolve_mech]
  · intro ea x hea hx
    subst hea
    subst hx
    simp [Service.resolve_mech]
  · intro ea eb hea heb
    subst hea
    subst heb
    simp [Service.resolve_mech]

/-- Witness for C1: schema A raising and schema B succeeding is a
satisfiable configuration, resolved to schema B's non-empty value. -/
theorem c1_mech_resolution_witness :
    Service.resolve_mech (Except.error Exc.contractLogicError) (Except.ok "0xagentmechProbe") ≠ ""
    ∧ Service.resolve_mech (Except.error Exc.contractLogicError) (Except.ok "0xagentmechProbe")
        = "0xagentmechProbe" :=
  ⟨(c1_mech_resolution (Except.error Exc.contractLogicError) (Except.ok "0xagentmechProbe")
      (by intro x hx; cases hx) (by intro x hx; cases hx; decide)).1,
   (c1_mech_resolution (Except.error Exc.contractLogicError) (Except.ok "0xagentmechProbe")
      (by intro x hx; cases hx)
      (by intro x hx; cases hx; decide)).2.2.1 Exc.contractLogicError "0xagentmechProbe" rfl rfl⟩

/-- C2 (amended): the `required_mech_requests` field equals the ceiling of
the *binary64-rounded* quotient `livenessRatio * 86400 / 1e18` (Python's
float true division feeds `math.ceil`), which can fall below the exact
mathematical ceiling; for the spec's example ratio `⌊1e18 / 86400⌋` it
does equal `1`. -/
theorem c2_required_requests (reward L C ratio period ts : ℕ) (hash body : String)
    (f : String → String) (mech stk act safe : String) (sid : ℕ) :
    (Chain.get_staking_status (mkChainEnvOk reward L C ratio period ts hash f 200 body)
        mech stk act sid safe).map (fun st => st.required_mech_requests)
      = Except.ok (pyCeilF (pyIntTrueDiv (ratio * 60 * 60 * 24) (10 ^ 18)))
    ∧ pyCeilF (pyIntTrueDiv ((10 ^ 18 / 86400) * 60 * 60 * 24) (10 ^ 18)) = 1 := by
  constructor
  · rfl
  · decide

/-- Counterexample for C2: at `livenessRatio = 1e18 + 1` the code computes
`86400` (the quotient `86400 + 8.64e-14` rounds to the double `86400.0`
before `math.ceil`), while the exact mathematical ceiling of
`(1e18 + 1) * 86400 / 1e18` is `86401`. -/
theorem c2_counterexample :
    (Chain.get_staking_status
        (mkChainEnvOk 0 0 0 (10 ^ 18 + 1) 0 0 "h" (fun h => h) 200 "body")
        "0xmech" "0xstaking" "0xactivity" 1 "0xsafe").map (fun st => st.required_mech_requests)
      = Except.ok 86400
    ∧ ((10 ^ 18 + 1) * 86400 + 10 ^ 18 - 1) / 10 ^ 18 = 86401 := by
  constructor
  · decide
  · decide

/-- C3: the `mech_requests_this_epoch` field is the plain integer
difference of the lifetime count and the last-checkpoint count — no
clamping — and a negative difference is surfaced in the snapshot
(second conjunct: lifetime 0, checkpoint 5 yields `-5`). -/
theorem c3_epoch_requests (reward L C ratio period ts : ℕ) (hash body : String)
    (f : String → String) (mech stk act safe : String) (sid : ℕ) :
    (Chain.get_staking_status (mkChainEnvOk reward L C ratio period ts hash f 200 body)
        mech stk act sid safe).map (fun st => st.mech_requests_this_epoch)
      = Except.ok ((L : ℤ) - (C : ℤ))
    ∧ (Chain.get_staking_status (mkChainEnvOk 0 0 5 1 1 1 "h" (fun h => h) 200 "b")
        "0xmech" "0xstaking" "0xactivity" 1 "0xsafe").map (fun st => st.mech_requests_this_epoch)
      = Except.ok (-5 : ℤ) := by
  constructor
  · rfl
  · decide

/-- C4 (amended): only a `KeyError` raised in the staking-parameter block
of `TritonService.get_staking_status` is converted to
`ValueError("Failed to get staking status.")`; any other failure of that
block, and every contract-read failure inside steps 1–6 of
`chain.get_staking_status`, propagates to the caller unchanged. -/
theorem c4_error_propagation (reward L C ratio period ts : ℕ) (hash body : String)
    (f : String → String) (t : String) :
    (Service.get_staking_status
        { mkServiceEnvOk (mkChainEnvOk reward L C ratio period ts hash f 200 body) with
            stakingParamsActivityChecker := Except.error Exc.keyError }
      = Except.error (Exc.valueError "Failed to get staking status."))
    ∧ (Service.get_staking_status
        { mkServiceEnvOk (mkChainEnvOk reward L C ratio period ts hash f 200 body) with
            stakingParamsActivityChecker := Except.error (Exc.otherExc t) }
      = Except.error (Exc.otherExc t))
    ∧ (Service.get_staking_status
        { mkServiceEnvOk (mkChainEnvOk reward L C ratio period ts hash f 200 body) with
            chainEnv := { mkChainEnvOk reward L C ratio period ts hash f 200 body with
              mapServiceInfo := fun _ => Except.error (Exc.otherExc t) } }
      = Except.error (Exc.otherExc t))
    ∧ (Service.get_staking_status
        { mkServiceEnvOk (mkChainEnvOk reward L C ratio period ts hash f 200 body) with
            chainEnv := { mkChainEnvOk reward L C ratio period ts hash f 200 body with
              mapRequestsCounts := fun _ _ => Except.error Exc.contractLogicError,
              mapRequestCounts := fun _ _ => Except.error (Exc.otherExc t) } }
      = Except.error (Exc.otherExc t))
    ∧ (Service.get_staking_status
        { mkServiceEnvOk (mkChainEnvOk reward L C ratio period ts hash f 200 body) with
            chainEnv := { mkChainEnvOk reward L C ratio period ts hash f 200 body with
              mapRequestsCounts := fun _ _ => Except.error (Exc.otherExc t) } }
      = Except.error (Exc.otherExc t))
    ∧ (Service.get_staking_status
        { mkServiceEnvOk (mkChainEnvOk reward L C ratio period ts hash f 200 body) with
            chainEnv := { mkChainEnvOk reward L C ratio period ts hash f 200 body with
              getServiceInfo := fun _ => Except.error (Exc.otherExc t) } }
      = Except.error (Exc.otherExc t))
    ∧ (Service.get_staking_status
        { mkServiceEnvOk (mkChainEnvOk reward L C ratio period ts hash f 200 body) with
            chainEnv := { mkChainEnvOk reward L C ratio period ts hash f 200 body with
              livenessRatioCall := Except.error (Exc.otherExc t) } }
      = Except.error (Exc.otherExc t))
    ∧ (Service.get_staking_status
        { mkServiceEnvOk (mkChainEnvOk reward L C ratio period ts hash f 200 body) with
            chainEnv := { mkChainEnvOk reward L C ratio period ts hash f 200 body with
              livenessPeriodCall := Except.error (Exc.otherExc t) } }
      = Except.error (Exc.otherExc t))
    ∧ (Service.get_staking_status
        { mkServiceEnvOk (mkChainEnvOk reward L C ratio period ts hash f 200 body) with
            chainEnv := { mkChainEnvOk reward L C ratio period ts hash f 200 body with
              tsCheckpointCall := Except.error (Exc.otherExc t) } }
      = Except.error (Exc.otherExc t)) := by
  refine ⟨rfl, rfl, rfl, rfl, rfl, rfl, rfl, rfl, rfl⟩

/-- Counterexample for C4: a `ContractLogicError` raised by the very first
contract read of step 1 (`mapServiceInfo`) reaches the caller as itself,
not as the typed `ValueError("Failed to get staking status.")`. -/
theorem c4_counterexample :
    Service.get_staking_status
        { mkServiceEnvOk (mkChainEnvOk 0 0 0 1 1 1 "h" (fun h => h) 200 "b") with
            chainEnv := { mkChainEnvOk 0 0 0 1 1 1 "h" (fun h => h) 200 "b" with
              mapServiceInfo := fun _ => Except.error Exc.contractLogicError } }
      = Except.error Exc.contractLogicError
    ∧ (Except.error Exc.contractLogicError : Except Exc StakingStatus)
      ≠ Except.error (Exc.valueError "Failed to get staking status.") := by
  constructor
  · decide
  · decide

/-- C5: the metadata fetch of `chain.get_staking_status` raises exactly
when the HTTP status is not 200, and the raised failure names the fetched
address and the status code (`"Failed to fetch data from <address>:
<status>"`); on a 200 response the parsed payload is returned in the
snapshot's `metadata` field and no error is raised. -/
theorem c5_metadata_fetch (reward L C ratio period ts : ℕ) (hash body : String)
    (f : String → String) (mech stk act safe : String) (sid status : ℕ) :
    (status ≠ 200 →
      Chain.get_staking_status (mkChainEnvOk reward L C ratio period ts hash f status body)
          mech stk act sid safe
        = Except.error (Exc.requestException
            ("Failed to fetch data from " ++ f hash ++ ": " ++ toString status)))
    ∧ (status = 200 →
      Chain.get_staking_status (mkChainEnvOk reward L C ratio period ts hash f status body)
          mech stk act sid safe
        = Except.ok
            { accrued_rewards := wei_to_olas reward
              mech_requests_this_epoch := (L : ℤ) - (C : ℤ)
              required_mech_requests := pyCeilF (pyIntTrueDiv (ratio * 60 * 60 * 24) (10 ^ 18))
              epoch_end := ts + period
              metadata := body }) := by
  constructor
  · intro h
    simp only [Chain.get_staking_status, mkChainEnvOk, listIdx, Chain.get_mech_request_count,
      bind, Except.bind]
    simp [h]
  · intro h
    subst h
    rfl

/-- Witness for C5: both branches are realized, at status 404 and 200. -/
theorem c5_metadata_fetch_witness :
    (Chain.get_staking_status (mkChainEnvOk 7 9 4 1 1 1 "abcd" (fun h => "ipfs://" ++ h) 404 "md")
        "0xmech" "0xstaking" "0xactivity" 1 "0xsafe"
      = Except.error (Exc.requestException
          ("Failed to fetch data from " ++ ("ipfs://" ++ "abcd") ++ ": " ++ toString (404 : ℕ))))
    ∧ (Chain.get_staking_status (mkChainEnvOk 7 9 4 1 1 1 "abcd" (fun h => "ipfs://" ++ h) 200 "md")
        "0xmech" "0xstaking" "0xactivity" 1 "0xsafe"
      = Except.ok
          { accrued_rewards := wei_to_olas 7
            mech_requests_this_epoch := (9 : ℤ) - (4 : ℤ)
            required_mech_requests := pyCeilF (pyIntTrueDiv (1 * 60 * 60 * 24) (10 ^ 18))
            epoch_end := 1 + 1
            metadata := "md" }) :=
  ⟨(c5_metadata_fetch 7 9 4 1 1 1 "abcd" "md" (fun h => "ipfs://" ++ h)
      "0xmech" "0xstaking" "0xactivity" "0xsafe" 1 404).1 (by decide),
   (c5_metadata_fetch 7 9 4 1 1 1 "abcd" "md" (fun h => "ipfs://" ++ h)
      "0xmech" "0xstaking" "0xactivity" "0xsafe" 1 200).2 rfl⟩

/-- The service-safe branch issues at most one transfer call, always to the
withdrawal address with the OLAS token. -/
theorem servicePathStep_trace (env : Service.WithdrawEnv) (w : String) :
    (Service.servicePathStep env w).1 = []
    ∨ ∃ amt, (Service.servicePathStep env w).1
        = [Service.WEv.serviceTransferEv w amt env.olasTokenAddress] := by
  unfold Service.servicePathStep
  cases hsb : env.serviceOlasBalance with
  | error e => left; rfl
  | ok sb =>
    dsimp only
    by_cases hp : 0 < (Service.olasDisplay sb).m
    · rw [if_pos hp]
      cases hk : env.keysCrypto with
      | error e => left; rfl
      | ok u =>
        cases ht : env.serviceTransfer with
        | error e => right; exact ⟨_, rfl⟩
        | ok tx => right; exact ⟨_, rfl⟩
    · rw [if_neg hp]
      left; rfl

/-- The service-safe branch contributes at most one withdrawal record,
always labelled `"Service Safe"` and reporting the float display balance. -/
theorem servicePathStep_results (env : Service.WithdrawEnv) (w : String) :
    (Service.servicePathStep env w).2 = []
    ∨ ∃ tx sb, env.serviceOlasBalance = Except.ok sb
        ∧ (Service.servicePathStep env w).2
            = [{ txHash := tx, amount := Service.olasDisplay sb, source := "Service Safe" }] := by
  unfold Service.servicePathStep
  cases hsb : env.serviceOlasBalance with
  | error e => left; rfl
  | ok sb =>
    dsimp only
    by_cases hp : 0 < (Service.olasDisplay sb).m
    · rw [if_pos hp]
      cases hk : env.keysCrypto with
      | error e => left; rfl
      | ok u =>
        cases ht : env.serviceTransfer with
        | error e => left; rfl
        | ok tx => right; exact ⟨tx, sb, rfl, rfl⟩
    · rw [if_neg hp]
      left; rfl

/-- C6 (amended): `check_balance` fails fast with a descriptive
`ValueError` and an empty read trace when the instances list is empty or
`safes` is `None`; when the safes mapping contains the home chain it
returns all seven balances after seven reads. (When the mapping exists but
lacks the home chain, neither holds — see the counterexample.) -/
theorem c6_check_balance (env : Service.BalanceEnv) :
    (env.instances = [] →
      Service.check_balance env
        = ([], Except.error (Exc.valueError "No agent instances found in the chain configuration")))
    ∧ (∀ a rest, env.instances = a :: rest → env.safes = none →
      Service.check_balance env
        = ([], Except.error (Exc.valueError "Master wallet safes not found")))
    ∧ (∀ a rest m ms, env.instances = a :: rest → env.safes = some m →
      Service.lookupChain m env.homeChain = some ms →
      Service.check_balance env
        = ([Service.ReadEv.nativeRead a, Service.ReadEv.nativeRead env.multisig,
            Service.ReadEv.wrappedRead env.multisig, Service.ReadEv.nativeRead env.masterEoa,
            Service.ReadEv.nativeRead ms, Service.ReadEv.olasRead ms,
            Service.ReadEv.olasRead env.multisig],
           Except.ok
             { agent_eoa_native_balance := env.nativeBalance a
               service_safe_native_balance := env.nativeBalance env.multisig
               service_safe_wrapped_native_balance := env.wrappedBalance env.multisig
               master_eoa_native_balance := env.nativeBalance env.masterEoa
               master_safe_native_balance := env.nativeBalance ms
               master_safe_olas_balance := Service.olasDisplay (env.olasBalance ms)
               service_safe_olas_balance := Service.olasDisplay (env.olasBalance env.multisig) })) := by
  refine ⟨?_, ?_, ?_⟩
  · intro h
    simp [Service.check_balance, h]
  · intro a rest h1 h2
    simp [Service.check_balance, h1, h2]
  · intro a rest m ms h1 h2 h3
    simp [Service.check_balance, h1, h2, h3]

/-- Witness for C6: all three branches are realized on concrete
environments. -/
theorem c6_check_balance_witness :
    Service.check_balance cbEmptyEnv
      = ([], Except.error (Exc.valueError "No agent instances found in the chain configuration"))
    ∧ Service.check_balance cbNoneEnv
      = ([], Except.error (Exc.valueError "Master wallet safes not found"))
    ∧ Service.check_balance cbOkEnv
      = ([Service.ReadEv.nativeRead "0xagent", Service.ReadEv.nativeRead cbOkEnv.multisig,
          Service.ReadEv.wrappedRead cbOkEnv.multisig, Service.ReadEv.nativeRead cbOkEnv.masterEoa,
          Service.ReadEv.nativeRead "0xmastersafe", Service.ReadEv.olasRead "0xmastersafe",
          Service.ReadEv.olasRead cbOkEnv.multisig],
         Except.ok
           { agent_eoa_native_balance := cbOkEnv.nativeBalance "0xagent"
             service_safe_native_balance := cbOkEnv.nativeBalance cbOkEnv.multisig
             service_safe_wrapped_native_balance := cbOkEnv.wrappedBalance cbOkEnv.multisig
             master_eoa_native_balance := cbOkEnv.nativeBalance cbOkEnv.masterEoa
             master_safe_native_balance := cbOkEnv.nativeBalance "0xmastersafe"
             master_safe_olas_balance := Service.olasDisplay (cbOkEnv.olasBalance "0xmastersafe")
             service_safe_olas_balance :=
               Service.olasDisplay (cbOkEnv.olasBalance cbOkEnv.multisig) }) :=
  ⟨(c6_check_balance cbEmptyEnv).1 rfl,
   (c6_check_balance cbNoneEnv).2.1 "0xagent" [] rfl rfl,
   (c6_check_balance cbOkEnv).2.2 "0xagent" [] [("gnosis", "0xmastersafe")] "0xmastersafe"
     rfl rfl (by decide)⟩

/-- Counterexample for C6: with one instance and a safes mapping lacking
the home chain, `check_balance` issues four balance reads and then raises
`KeyError` — neither a fail-fast validation error before any read, nor a
seven-balance result. -/
theorem c6_counterexample :
    (Service.check_balance cbGapEnv).1 ≠ []
    ∧ (Service.check_balance cbGapEnv).2 = Except.error Exc.keyError := by
  constructor
  · decide
  · decide

/-- C7: with no configured withdrawal address (or an empty one, which
Python's truthiness test also rejects), `withdraw_rewards` returns the
empty list and issues no balance read and no transfer call. -/
theorem c7_no_withdrawal_address (env : Service.WithdrawEnv)
    (h : env.withdrawalAddress = none ∨ env.withdrawalAddress = some "") :
    Service.withdraw_rewards env = ([], Except.ok []) := by
  rcases h with h | h <;> simp [Service.withdraw_rewards, h]

/-- Witness for C7 at a concrete environment with `None` address. -/
theorem c7_no_withdrawal_address_witness :
    Service.withdraw_rewards noWdEnv = ([], Except.ok []) :=
  c7_no_withdrawal_address noWdEnv (Or.inl rfl)

/-- C8: with a configured withdrawal address and a master-safe OLAS
balance of exactly 0, `withdraw_rewards` performs no master-safe transfer
and records no master-safe entry, yet still reads the service-safe balance
and runs the service-safe withdrawal path. -/
theorem c8_zero_master_balance (env : Service.WithdrawEnv) (w ms : String)
    (hw : env.withdrawalAddress = some w) (hne : w ≠ "")
    (hms : env.homeChainSafe = Except.ok ms)
    (hb : env.masterOlasBalance = Except.ok 0) :
    Service.withdraw_rewards env
      = ([Service.WEv.olasReadEv ms, Service.WEv.olasReadEv env.serviceSafe]
          ++ (Service.servicePathStep env w).1,
         Except.ok (Service.servicePathStep env w).2)
    ∧ (∀ x amt asset, Service.WEv.masterTransferEv x amt asset ∉ (Service.withdraw_rewards env).1)
    ∧ (∀ wd, wd ∈ (Service.servicePathStep env w).2 → wd.source ≠ "Master Safe")
    ∧ Service.WEv.olasReadEv env.serviceSafe ∈ (Service.withdraw_rewards env).1 := by
  have hmp : Service.masterPathStep env w = ([], []) := by
    unfold Service.masterPathStep
    rw [hb]
    simp
  have hwr : Service.withdraw_rewards env
      = ([Service.WEv.olasReadEv ms] ++ (Service.masterPathStep env w).1
          ++ [Service.WEv.olasReadEv env.serviceSafe] ++ (Service.servicePathStep env w).1,
         Except.ok ((Service.masterPathStep env w).2 ++ (Service.servicePathStep env w).2)) := by
    unfold Service.withdraw_rewards
    rw [hw]
    simp [hne, hms]
  refine ⟨?_, ?_, ?_, ?_⟩
  · rw [hwr, hmp]
    simp
  · intro x amt asset hmem
    rw [hwr, hmp] at hmem
    simp at hmem
    rcases servicePathStep_trace env w with h0 | ⟨amt', h1⟩
    · rw [h0] at hmem
      simp at hmem
    · rw [h1] at hmem
      simp at hmem
  · intro wd hmem
    rcases servicePathStep_results env w with h0 | ⟨tx, sb, hsb, h1⟩
    · rw [h0] at hmem
      simp at hmem
    · rw [h1] at hmem
      simp at hmem
      simp [hmem]
  · rw [hwr]
    simp

/-- Witness for C8 at a concrete environment with zero master balance. -/
theorem c8_zero_master_balance_witness :
    Service.withdraw_rewards (mkWithdrawEnvOk 0 7)
      = ([Service.WEv.olasReadEv "0xmastersafe",
          Service.WEv.olasReadEv (mkWithdrawEnvOk 0 7).serviceSafe]
          ++ (Service.servicePathStep (mkWithdrawEnvOk 0 7) "0xwithdrawal").1,
         Except.ok (Service.servicePathStep (mkWithdrawEnvOk 0 7) "0xwithdrawal").2) :=
  (c8_zero_master_balance (mkWithdrawEnvOk 0 7) "0xwithdrawal" "0xmastersafe"
    rfl (by decide) rfl rfl).1

/-- C9: once the withdrawal address is configured and the safes lookup
succeeds, `withdraw_rewards` always returns a value (never an error): the
concatenation of the two branches' contributions. A failed balance read or
transfer in either branch contributes nothing, the service-safe read is
issued regardless of the master branch's outcome, and successful branches
contribute their `(tx, amount, source)` records. -/
theorem c9_fault_isolation (env : Service.WithdrawEnv) (w ms : String)
    (hw : env.withdrawalAddress = some w) (hne : w ≠ "")
    (hms : env.homeChainSafe = Except.ok ms) :
    (Service.withdraw_rewards env).2
      = Except.ok ((Service.masterPathStep env w).2 ++ (Service.servicePathStep env w).2)
    ∧ (∀ e, env.masterOlasBalance = Except.error e → (Service.masterPathStep env w).2 = [])
    ∧ (∀ e, env.masterTransfer = Except.error e → (Service.masterPathStep env w).2 = [])
    ∧ (∀ e, env.serviceOlasBalance = Except.error e → (Service.servicePathStep env w).2 = [])
    ∧ (∀ e, env.serviceTransfer = Except.error e → (Service.servicePathStep env w).2 = [])
    ∧ Service.WEv.olasReadEv env.serviceSafe ∈ (Service.withdraw_rewards env).1
    ∧ (∀ b tx, env.masterOlasBalance = Except.ok b → b ≠ 0 → env.masterTransfer = Except.ok tx →
        ({ txHash := tx, amount := Service.olasDisplay b, source := "Master Safe" }
            : Service.Withdrawal)
          ∈ (Service.masterPathStep env w).2)
    ∧ (∀ sb tx, env.serviceOlasBalance = Except.ok sb → 0 < (Service.olasDisplay sb).m →
        env.keysCrypto = Except.ok () → env.serviceTransfer = Except.ok tx →
        ({ txHash := tx, amount := Service.olasDisplay sb, source := "Service Safe" }
            : Service.Withdrawal)
          ∈ (Service.servicePathStep env w).2) := by
  refine ⟨?_, ?_, ?_, ?_, ?_, ?_, ?_, ?_⟩
  · unfold Service.withdraw_rewards
    rw [hw]
    simp [hne, hms]
  · intro e he
    unfold Service.masterPathStep
    rw [he]
    simp
  · intro e he
    unfold Service.masterPathStep
    rw [he]
    dsimp only
    split
    · rfl
    · rfl
  · intro e he
    unfold Service.servicePathStep
    rw [he]
  · intro e he
    unfold Service.servicePathStep
    cases hsb : env.serviceOlasBalance with
    | error e2 => rfl
    | ok sb =>
      dsimp only
      by_cases hp : 0 < (Service.olasDisplay sb).m
      · rw [if_pos hp]
        cases hk : env.keysCrypto with
        | error e3 => rfl
        | ok u => rw [he]
      · rw [if_neg hp]
  · unfold Service.withdraw_rewards
    rw [hw]
    simp [hne, hms]
  · intro b tx hb hbne ht
    simp [Service.masterPathStep, hb, ht, hbne]
  · intro sb tx hsb hp hk ht
    simp [Service.servicePathStep, hsb, hk, ht, hp]

/-- Witness for C9 at a concrete all-success environment. -/
theorem c9_fault_isolation_witness :
    (Service.withdraw_rewards (mkWithdrawEnvOk 5 7)).2
      = Except.ok ((Service.masterPathStep (mkWithdrawEnvOk 5 7) "0xwithdrawal").2
          ++ (Service.servicePathStep (mkWithdrawEnvOk 5 7) "0xwithdrawal").2)
    ∧ Service.WEv.olasReadEv (mkWithdrawEnvOk 5 7).serviceSafe
        ∈ (Service.withdraw_rewards (mkWithdrawEnvOk 5 7)).1 :=
  ⟨(c9_fault_isolation (mkWithdrawEnvOk 5 7) "0xwithdrawal" "0xmastersafe"
      rfl (by decide) rfl).1,
   (c9_fault_isolation (mkWithdrawEnvOk 5 7) "0xwithdrawal" "0xmastersafe"
      rfl (by decide) rfl).2.2.2.2.2.1⟩

/-- C10: in the service-safe path the raw balance `b` is displayed as the
float `b / 1e18` and the transfer receives the float `(b / 1e18) * 1e18`;
the recorded tuple reports the float display value. Whenever the
conversion round-trips exactly the transferred value equals `b`, but it
does not for every balance: at `b = 1e18 + 1` the transferred value is
`1e18`, and the recorded display value `1.0` differs from the exact
quotient `(1e18 + 1) / 1e18`. -/
theorem c10_service_float_conversion (env : Service.WithdrawEnv) (w ms : String) (b : ℕ)
    (tx : Option String)
    (hw : env.withdrawalAddress = some w) (hne : w ≠ "")
    (hms : env.homeChainSafe = Except.ok ms)
    (hb : env.serviceOlasBalance = Except.ok b)
    (hp : 0 < (Service.olasDisplay b).m)
    (hk : env.keysCrypto = Except.ok ())
    (ht : env.serviceTransfer = Except.ok tx) :
    Service.WEv.serviceTransferEv w (pyFloatMul (Service.olasDisplay b) ⟨10 ^ 18, 0⟩)
        env.olasTokenAddress
      ∈ (Service.withdraw_rewards env).1
    ∧ (∃ l, (Service.withdraw_rewards env).2 = Except.ok l
        ∧ ({ txHash := tx, amount := Service.olasDisplay b, source := "Service Safe" }
            : Service.Withdrawal) ∈ l)
    ∧ (∀ b' : ℕ, (pyFloatMul (Service.olasDisplay b') ⟨10 ^ 18, 0⟩).valEq ⟨b', 0⟩ →
        (pyFloatMul (Service.olasDisplay b') ⟨10 ^ 18, 0⟩).toRat = (b' : ℚ))
    ∧ ¬ (pyFloatMul (Service.olasDisplay (10 ^ 18 + 1)) ⟨10 ^ 18, 0⟩).valEq ⟨10 ^ 18 + 1, 0⟩
    ∧ (pyFloatMul (Service.olasDisplay (10 ^ 18 + 1)) ⟨10 ^ 18, 0⟩).valEq ⟨10 ^ 18, 0⟩
    ∧ (Service.olasDisplay (10 ^ 18 + 1)).toRat ≠ ((10 ^ 18 + 1 : ℕ) : ℚ) / 10 ^ 18 := by
  have hsp1 : (Service.servicePathStep env w).1
      = [Service.WEv.serviceTransferEv w (pyFloatMul (Service.olasDisplay b) ⟨10 ^ 18, 0⟩)
          env.olasTokenAddress] := by
    simp [Service.servicePathStep, hb, hk, ht, hp]
  have hsp2 : (Service.servicePathStep env w).2
      = [{ txHash := tx, amount := Service.olasDisplay b, source := "Service Safe" }] := by
    simp [Service.servicePathStep, hb, hk, ht, hp]
  have hwr1 : (Service.withdraw_rewards env).1
      = [Service.WEv.olasReadEv ms] ++ (Service.masterPathStep env w).1
          ++ [Service.WEv.olasReadEv env.serviceSafe] ++ (Service.servicePathStep env w).1 := by
    unfold Service.withdraw_rewards
    rw [hw]
    simp [hne, hms]
  have hwr2 : (Service.withdraw_rewards env).2
      = Except.ok ((Service.masterPathStep env w).2 ++ (Service.servicePathStep env w).2) := by
    unfold Service.withdraw_rewards
    rw [hw]
    simp [hne, hms]
  refine ⟨?_, ?_, ?_, ?_, ?_, ?_⟩
  · rw [hwr1, hsp1]
    simp
  · refine ⟨(Service.masterPathStep env w).2 ++ (Service.servicePathStep env w).2, hwr2, ?_⟩
    rw [hsp2]
    simp
  · intro b' h
    rw [Dyadic.valEq_iff_toRat] at h
    rw [h]
    simp [Dyadic.toRat]
  · decide
  · decide
  · have hd : Service.olasDisplay (10 ^ 18 + 1) = ⟨2 ^ 52, -52⟩ := by decide
    rw [hd]
    unfold Dyadic.toRat
    intro hcontra
    rw [zpow_neg] at hcontra
    have h1 : ((2 ^ 52 : ℕ) : ℚ) * ((2 : ℚ) ^ (52 : ℤ))⁻¹ = 1 := by
      norm_num
    rw [h1] at hcontra
    have h2 : ((10 ^ 18 + 1 : ℕ) : ℚ) = (10 : ℚ) ^ 18 + 1 := by
      push_cast
      ring
    rw [h2] at hcontra
    have h3 : ((10 : ℚ) ^ 18 + 1) / 10 ^ 18 ≠ 1 := by
      intro hx
      field_simp at hx
    exact h3 hcontra.symm

/-- Witness for C10 at a concrete environment whose service balance
`2e18` round-trips exactly. -/
theorem c10_service_float_conversion_witness :
    Service.WEv.serviceTransferEv "0xwithdrawal"
        (pyFloatMul (Service.olasDisplay (2 * 10 ^ 18)) ⟨10 ^ 18, 0⟩)
        (mkWithdrawEnvOk 5 (2 * 10 ^ 18)).olasTokenAddress
      ∈ (Service.withdraw_rewards (mkWithdrawEnvOk 5 (2 * 10 ^ 18))).1
    ∧ ¬ (pyFloatMul (Service.olasDisplay (10 ^ 18 + 1)) ⟨10 ^ 18, 0⟩).valEq ⟨10 ^ 18 + 1, 0⟩ :=
  ⟨(c10_service_float_conversion (mkWithdrawEnvOk 5 (2 * 10 ^ 18)) "0xwithdrawal" "0xmastersafe"
      (2 * 10 ^ 18) (some "0xtxservice") rfl (by decide) rfl rfl (by decide) rfl rfl).1,
   (c10_service_float_conversion (mkWithdrawEnvOk 5 (2 * 10 ^ 18)) "0xwithdrawal" "0xmastersafe"
      (2 * 10 ^ 18) (some "0xtxservice") rfl (by decide) rfl rfl (by decide) rfl rfl).2.2.2.1⟩

end Triton
